import Mathlib

/-!
Shallow embedding of the Hackelk recovery-shim modules
(`module/awadhfree.py`, `module/cdsfree.py`, `module/icsfree.py`,
`module/verbalfree.py`).

Each Python module consists of explicit placeholder functions plus a
module-level `__getattr__` fallback that synthesizes echo-stubs for
missing `module_*` / `func_*` attributes.  The embedding below models:

* Python values as the inductive `PyVal` (the fragment the code builds:
  `None`, booleans, ints, strings, tuples and string-keyed dicts);
* a Python callable as `PyFun : Args → Kwargs → List LogEvent × Except
  PyError PyVal`, i.e. an explicit list of emitted logging events
  together with either a returned value or a raised exception;
* `AttributeError` as `PyError.attributeError mod attr` — in the source
  the raised object is `AttributeError(f"module ... has no attribute ...")`
  whose message is built from exactly the module name and the requested
  attribute, so the embedding carries those two fields structurally;
* `TypeError` (raised by CPython when a zero-parameter `def` is called
  with arguments) as `PyError.typeError funcName`;
* `str.startswith` via `listIsLeading` on the character lists, and the
  ASCII fragment of `str.isidentifier` as `pyIsIdentifier` (the source
  and every input considered here is ASCII, where the two agree).
-/

/-- The fragment of Python values the shim modules construct. -/
inductive PyVal where
  | none
  | bool (b : Bool)
  | int (n : Int)
  | str (s : String)
  | tuple (elems : List PyVal)
  | dict (entries : List (String × PyVal))

/-- Positional arguments of a Python call (`*args`, a tuple). -/
abbrev Args := List PyVal

/-- Keyword arguments of a Python call (`**kwargs`, a string-keyed dict). -/
abbrev Kwargs := List (String × PyVal)

/-- Logging severities used by the modules (`logger.debug/info/warning`). -/
inductive Severity where
  | debug
  | info
  | warning

/-- One observability event: severity, emitting logger (`__name__` of the
module), the printf-style message template and the interpolated fields. -/
structure LogEvent where
  severity : Severity
  logger : String
  template : String
  fields : List PyVal

/-- Exceptions the embedded code can raise.  `attributeError mod attr`
models `AttributeError(f"module ... has no attribute ...")` — the spec's
`UnresolvedAttribute` — carrying the module identity and the requested
name, the exact data the source interpolates into the message.
`typeError f` models the `TypeError` CPython raises when the
zero-parameter function `f` is called with arguments. -/
inductive PyError where
  | attributeError (module : String) (attrName : String)
  | typeError (funcName : String)

/-- A Python callable: consumes positional and keyword arguments and
produces the emitted log events plus a returned value or a raised
exception. -/
abbrev PyFun := Args → Kwargs → List LogEvent × Except PyError PyVal

/-- The object `_make_stub` / `_make_dummy` returns: a function object
with `__name__` and `__doc__` metadata attached and a call behaviour. -/
structure StubCallable where
  pyName : String
  doc : String
  call : PyFun

/-- `listIsLeading pat l`: `pat` is a leading segment of `l`
(list-of-characters semantics of Python `str.startswith`). -/
def listIsLeading : List Char → List Char → Bool
  | [], _ => true
  | _ :: _, [] => false
  | a :: as, b :: bs => a == b && listIsLeading as bs

/-- Python `s.startswith(pat)`. -/
def pyStartsWith (s pat : String) : Bool :=
  listIsLeading pat.data s.data

/-- First character of a Python identifier (ASCII fragment). -/
def isIdentStart (c : Char) : Bool := c.isAlpha || c == '_'

/-- Continuation character of a Python identifier (ASCII fragment). -/
def isIdentCont (c : Char) : Bool := c.isAlphanum || c == '_'

/-- Python `str.isidentifier`, ASCII fragment: nonempty, first character a
letter or underscore, the rest letters, digits or underscores.  (Python
additionally admits non-ASCII XID characters; the source code and all
names considered in this development are ASCII, where both definitions
coincide.) -/
def pyIsIdentifier (s : String) : Bool :=
  match s.data with
  | [] => false
  | c :: cs => isIdentStart c && cs.all isIdentCont

/-- A module attribute as produced by the full lookup: either a function
pre-registered in the module's globals, or a stub synthesized by the
`__getattr__` fallback. -/
inductive ResolvedAttr where
  | preRegistered (f : PyFun)
  | synthesized (s : StubCallable)

/-- Zero-parameter placeholder (`def func_NNNN() -> None`): logs at debug
severity and returns `None` when called with no arguments; called with
any positional or keyword argument, CPython raises `TypeError` before
the body runs (so no event is emitted). -/
def zeroArgPlaceholder (mod template fname : String) : PyFun :=
  fun args kwargs =>
    if args.isEmpty && kwargs.isEmpty then
      ([⟨Severity.debug, mod, template, []⟩], Except.ok PyVal.none)
    else
      ([], Except.error (PyError.typeError fname))

/-- `def setup(client: Any) -> None`: binds exactly one argument, given
positionally or by the keyword `client`; logs and returns `None`.  Any
other argument shape raises `TypeError` at binding time. -/
def setupHook (mod msg : String) : PyFun :=
  fun args kwargs =>
    if (args.length == 1 && kwargs.isEmpty)
        || (args.isEmpty && kwargs.map Prod.fst == ["client"]) then
      ([⟨Severity.info, mod, msg, []⟩], Except.ok PyVal.none)
    else
      ([], Except.error (PyError.typeError "setup"))

namespace awadhfree

/-- `__name__` of the module when imported as `module.awadhfree`. -/
def MODULE_NAME : String := "module.awadhfree"

/-- `module_772`: `*args/**kwargs`, logs them at info, returns a string. -/
def module_772 : PyFun := fun args kwargs =>
  ([⟨Severity.info, MODULE_NAME, "module_772 called with args=%s kwargs=%s",
     [PyVal.tuple args, PyVal.dict kwargs]⟩],
   Except.ok (PyVal.str "module_772 OK"))

/-- `module_1861`: `*args/**kwargs` ignored, logs, returns a string. -/
def module_1861 : PyFun := fun _ _ =>
  ([⟨Severity.info, MODULE_NAME, "module_1861 called", []⟩],
   Except.ok (PyVal.str "module_1861 OK"))

/-- `module_567`: `*args/**kwargs` ignored, logs, returns a string. -/
def module_567 : PyFun := fun _ _ =>
  ([⟨Severity.info, MODULE_NAME, "module_567 called", []⟩],
   Except.ok (PyVal.str "module_567 OK"))

/-- `module_7197`: `*args/**kwargs` ignored, logs, returns a string. -/
def module_7197 : PyFun := fun _ _ =>
  ([⟨Severity.info, MODULE_NAME, "module_7197 called", []⟩],
   Except.ok (PyVal.str "module_7197 OK"))

/-- `def func_2731() -> None`: zero parameters. -/
def func_2731 : PyFun :=
  zeroArgPlaceholder MODULE_NAME "func_2731 executed" "func_2731"

/-- `def func_166() -> None`: zero parameters. -/
def func_166 : PyFun :=
  zeroArgPlaceholder MODULE_NAME "func_166 executed" "func_166"

/-- `def func_6399() -> None`: zero parameters. -/
def func_6399 : PyFun :=
  zeroArgPlaceholder MODULE_NAME "func_6399 executed" "func_6399"

/-- `_make_dummy(name)`: synthesize the fallback stub.  The stub logs one
warning carrying the bound name and the received inputs, and returns the
dict `{"stub": name, "args": args, "kwargs": kwargs}`. -/
def _make_dummy (name : String) : StubCallable where
  pyName := name
  doc := "Auto-generated stub for missing symbol \x27" ++ name ++ "\x27"
  call := fun args kwargs =>
    ([⟨Severity.warning, MODULE_NAME,
       "Called fallback stub %s with args=%s kwargs=%s",
       [PyVal.str name, PyVal.tuple args, PyVal.dict kwargs]⟩],
     Except.ok (PyVal.dict
       [("stub", PyVal.str name), ("args", PyVal.tuple args),
        ("kwargs", PyVal.dict kwargs)]))

/-- Module-level `__getattr__`: accepts names starting with `module_` or
`func_`, or any (ASCII) identifier; otherwise raises `AttributeError`.
Emits no log event on either path. -/
def __getattr__ (name : String) :
    List LogEvent × Except PyError StubCallable :=
  if (pyStartsWith name "module_" || pyStartsWith name "func_")
      || pyIsIdentifier name then
    ([], Except.ok (_make_dummy name))
  else
    ([], Except.error (PyError.attributeError MODULE_NAME name))

/-- `setup(client)`: no-op hook. -/
def setup : PyFun :=
  setupHook MODULE_NAME
    "awadhfree.setup() called — no handlers registered by default"

/-- The function-valued globals the module defines, in definition order.
(Implementation internals — `logger`, `_make_dummy`, `__getattr__` — are
not placeholder attributes and are omitted.) -/
def moduleAttrs : List (String × PyFun) :=
  [("module_772", module_772), ("module_1861", module_1861),
   ("module_567", module_567), ("module_7197", module_7197),
   ("func_2731", func_2731), ("func_166", func_166),
   ("func_6399", func_6399), ("setup", setup)]

/-- Dictionary lookup among the module's defined globals. -/
def lookupAttr (name : String) : Option PyFun :=
  (moduleAttrs.find? (fun p => p.1 == name)).map Prod.snd

/-- Full attribute access on the module object: Python consults the module
dict first and calls `__getattr__` only when that lookup fails. -/
def moduleGetattr (name : String) :
    List LogEvent × Except PyError ResolvedAttr :=
  match lookupAttr name with
  | some f => ([], Except.ok (ResolvedAttr.preRegistered f))
  | Option.none =>
      let r := __getattr__ name
      (r.1, r.2.map ResolvedAttr.synthesized)

end awadhfree

namespace cdsfree

/-- `__name__` of the module when imported as `module.cdsfree`. -/
def MODULE_NAME : String := "module.cdsfree"

/-- The `PLACEHOLDER_MODULES` list from the source. -/
def PLACEHOLDER_MODULES : List String :=
  ["module_1024", "module_7085", "module_9603", "module_2278",
   "module_155", "module_4650", "module_1372", "module_3125",
   "module_3696", "module_6821", "module_1152", "module_3096",
   "module_5358", "module_1337", "module_5873"]

/-- `_make(n)`: placeholder accepting `*args/**kwargs`, logging at info
and returning `{"name": n, "ok": True}`. -/
def _make (n : String) : PyFun := fun args kwargs =>
  ([⟨Severity.info, MODULE_NAME, "%s called with args=%s kwargs=%s",
     [PyVal.str n, PyVal.tuple args, PyVal.dict kwargs]⟩],
   Except.ok (PyVal.dict [("name", PyVal.str n), ("ok", PyVal.bool true)]))

/-- The `EXPLICIT_FUNCS` list from the source (note `func_9562` appears
twice; the second `globals()` assignment overwrites the first with a
behaviourally identical function). -/
def EXPLICIT_FUNCS : List String :=
  ["func_6860", "func_1501", "func_6451", "func_3497", "func_8510",
   "func_2652", "func_1904", "func_5312", "func_9476", "func_1488",
   "func_6050", "func_9562", "func_1259", "func_7514", "func_7239",
   "func_4594", "func_7029", "func_9562", "func_9611", "func_9078",
   "func_7334", "func_9701", "func_8757", "func_61", "func_6261",
   "func_6822", "func_3607", "func_8025", "func_8623", "func_9932",
   "func_6711", "func_9992", "func_5244", "func_9341", "func_7159",
   "func_2185", "func_5508", "func_8328", "func_2759", "func_3370",
   "func_5246", "func_6962", "func_9156", "func_4063", "func_8775",
   "func_9618", "func_5840", "func_8005", "func_9667", "func_5964",
   "func_1780", "func_7488", "func_5746", "func_5465", "func_8143",
   "func_6309"]

/-- `_makef(n)`: placeholder accepting `*args/**kwargs`, logging at debug
and returning `None`. -/
def _makef (n : String) : PyFun := fun args kwargs =>
  ([⟨Severity.debug, MODULE_NAME, "%s executed — args=%s kwargs=%s",
     [PyVal.str n, PyVal.tuple args, PyVal.dict kwargs]⟩],
   Except.ok PyVal.none)

/-- `_make_stub(name)`: the dynamic fallback stub — one warning event
carrying name, args and kwargs, returning
`{"stub": name, "args": args, "kwargs": kwargs}`. -/
def _make_stub (name : String) : StubCallable where
  pyName := name
  doc := "Auto-generated stub for missing symbol \x27" ++ name ++ "\x27"
  call := fun args kwargs =>
    ([⟨Severity.warning, MODULE_NAME, "Stub called: %s args=%s kwargs=%s",
       [PyVal.str name, PyVal.tuple args, PyVal.dict kwargs]⟩],
     Except.ok (PyVal.dict
       [("stub", PyVal.str name), ("args", PyVal.tuple args),
        ("kwargs", PyVal.dict kwargs)]))

/-- Module-level `__getattr__`: strict policy — only `module_` / `func_`
prefixed names are accepted; everything else raises `AttributeError`.
Emits no log event on either path. -/
def __getattr__ (name : String) :
    List LogEvent × Except PyError StubCallable :=
  if pyStartsWith name "module_" || pyStartsWith name "func_" then
    ([], Except.ok (_make_stub name))
  else
    ([], Except.error (PyError.attributeError MODULE_NAME name))

/-- `setup(client)`: no-op hook. -/
def setup : PyFun :=
  setupHook MODULE_NAME
    "cdsfree.setup() called — no handlers registered by default"

/-- The function-valued globals the module defines, in definition order:
the two `globals()` loops followed by `setup`. -/
def moduleAttrs : List (String × PyFun) :=
  PLACEHOLDER_MODULES.map (fun n => (n, _make n))
    ++ EXPLICIT_FUNCS.map (fun n => (n, _makef n))
    ++ [("setup", setup)]

/-- Dictionary lookup among the module's defined globals. -/
def lookupAttr (name : String) : Option PyFun :=
  (moduleAttrs.find? (fun p => p.1 == name)).map Prod.snd

/-- Full attribute access on the module object. -/
def moduleGetattr (name : String) :
    List LogEvent × Except PyError ResolvedAttr :=
  match lookupAttr name with
  | some f => ([], Except.ok (ResolvedAttr.preRegistered f))
  | Option.none =>
      let r := __getattr__ name
      (r.1, r.2.map ResolvedAttr.synthesized)

end cdsfree

namespace icsfree

/-- `__name__` of the module when imported as `module.icsfree`. -/
def MODULE_NAME : String := "module.icsfree"

/-- The `_PLACEHOLDER_MODULES` list from the source. -/
def _PLACEHOLDER_MODULES : List String :=
  ["module_9950", "module_5776", "module_9709", "module_4940",
   "module_3478", "module_7622", "module_4683", "module_6245",
   "module_5898", "module_3921", "module_3397", "module_8547",
   "module_5192", "module_1152", "module_4983"]

/-- `_make(n)`: placeholder accepting `*args/**kwargs`, logging at info
and returning `{"name": n, "ok": True}`. -/
def _make (n : String) : PyFun := fun args kwargs =>
  ([⟨Severity.info, MODULE_NAME, "%s called with args=%s kwargs=%s",
     [PyVal.str n, PyVal.tuple args, PyVal.dict kwargs]⟩],
   Except.ok (PyVal.dict [("name", PyVal.str n), ("ok", PyVal.bool true)]))

/-- The `_EXPLICIT_FUNCS` list from the source. -/
def _EXPLICIT_FUNCS : List String :=
  ["func_9688", "func_4890", "func_2536", "func_5582", "func_7887",
   "func_9221", "func_5664", "func_8117", "func_4210", "func_283",
   "func_7348", "func_5840", "func_6913", "func_9472", "func_6595",
   "func_8247", "func_6313", "func_151", "func_568", "func_7786",
   "func_6479", "func_851", "func_3534", "func_6352", "func_1441",
   "func_9477", "func_3773", "func_9486", "func_3484", "func_8895",
   "func_4626", "func_206", "func_3792", "func_6094", "func_8031",
   "func_820", "func_8675", "func_5192", "func_8116", "func_1398",
   "func_7791", "func_5531", "func_14", "func_473", "func_8426",
   "func_8300", "func_679", "func_5319", "func_6091", "func_1464",
   "func_7125", "func_7839", "func_955", "func_3290", "func_5812",
   "func_2344", "func_6335", "func_4374", "func_5253", "func_2832",
   "func_4996", "func_243", "func_2053", "func_3535", "func_4631",
   "func_4811", "func_4683", "func_9446", "func_2277", "func_2865",
   "func_7651", "func_6851"]

/-- `_makef(n)`: placeholder accepting `*args/**kwargs`, logging at debug
and returning `None`. -/
def _makef (n : String) : PyFun := fun args kwargs =>
  ([⟨Severity.debug, MODULE_NAME, "%s executed — args=%s kwargs=%s",
     [PyVal.str n, PyVal.tuple args, PyVal.dict kwargs]⟩],
   Except.ok PyVal.none)

/-- `_make_stub(name)`: the dynamic fallback stub. -/
def _make_stub (name : String) : StubCallable where
  pyName := name
  doc := "Auto-generated stub for missing symbol \x27" ++ name ++ "\x27"
  call := fun args kwargs =>
    ([⟨Severity.warning, MODULE_NAME, "Stub called: %s args=%s kwargs=%s",
       [PyVal.str name, PyVal.tuple args, PyVal.dict kwargs]⟩],
     Except.ok (PyVal.dict
       [("stub", PyVal.str name), ("args", PyVal.tuple args),
        ("kwargs", PyVal.dict kwargs)]))

/-- Module-level `__getattr__`: strict policy. -/
def __getattr__ (name : String) :
    List LogEvent × Except PyError StubCallable :=
  if pyStartsWith name "module_" || pyStartsWith name "func_" then
    ([], Except.ok (_make_stub name))
  else
    ([], Except.error (PyError.attributeError MODULE_NAME name))

/-- `setup(client)`: no-op hook. -/
def setup : PyFun :=
  setupHook MODULE_NAME
    "icsfree.setup() called — no handlers registered by default"

/-- The function-valued globals the module defines, in definition order. -/
def moduleAttrs : List (String × PyFun) :=
  _PLACEHOLDER_MODULES.map (fun n => (n, _make n))
    ++ _EXPLICIT_FUNCS.map (fun n => (n, _makef n))
    ++ [("setup", setup)]

/-- Dictionary lookup among the module's defined globals. -/
def lookupAttr (name : String) : Option PyFun :=
  (moduleAttrs.find? (fun p => p.1 == name)).map Prod.snd

/-- Full attribute access on the module object. -/
def moduleGetattr (name : String) :
    List LogEvent × Except PyError ResolvedAttr :=
  match lookupAttr name with
  | some f => ([], Except.ok (ResolvedAttr.preRegistered f))
  | Option.none =>
      let r := __getattr__ name
      (r.1, r.2.map ResolvedAttr.synthesized)

end icsfree

namespace verbalfree

/-- `__name__` of the module when imported as `module.verbalfree`. -/
def MODULE_NAME : String := "module.verbalfree"

/-- `module_3397`: logs args at info, returns `{"name": ..., "ok": True}`. -/
def module_3397 : PyFun := fun args kwargs =>
  ([⟨Severity.info, MODULE_NAME, "module_3397 called with args=%s kwargs=%s",
     [PyVal.tuple args, PyVal.dict kwargs]⟩],
   Except.ok (PyVal.dict
     [("name", PyVal.str "module_3397"), ("ok", PyVal.bool true)]))

/-- `module_6945`: logs, returns `{"name": ..., "value": 6945}`. -/
def module_6945 : PyFun := fun _ _ =>
  ([⟨Severity.info, MODULE_NAME, "module_6945 called", []⟩],
   Except.ok (PyVal.dict
     [("name", PyVal.str "module_6945"), ("value", PyVal.int 6945)]))

/-- `module_336`: logs, returns `{"name": "module_336"}`. -/
def module_336 : PyFun := fun _ _ =>
  ([⟨Severity.info, MODULE_NAME, "module_336 called", []⟩],
   Except.ok (PyVal.dict [("name", PyVal.str "module_336")]))

/-- `module_1960`: logs, returns `{"name": "module_1960"}`. -/
def module_1960 : PyFun := fun _ _ =>
  ([⟨Severity.info, MODULE_NAME, "module_1960 called", []⟩],
   Except.ok (PyVal.dict [("name", PyVal.str "module_1960")]))

/-- `module_8023`: logs, returns `{"name": "module_8023"}`. -/
def module_8023 : PyFun := fun _ _ =>
  ([⟨Severity.info, MODULE_NAME, "module_8023 called", []⟩],
   Except.ok (PyVal.dict [("name", PyVal.str "module_8023")]))

/-- `module_4952`: logs, returns `{"name": "module_4952"}`. -/
def module_4952 : PyFun := fun _ _ =>
  ([⟨Severity.info, MODULE_NAME, "module_4952 called", []⟩],
   Except.ok (PyVal.dict [("name", PyVal.str "module_4952")]))

/-- `module_6005`: logs, returns `{"name": "module_6005"}`. -/
def module_6005 : PyFun := fun _ _ =>
  ([⟨Severity.info, MODULE_NAME, "module_6005 called", []⟩],
   Except.ok (PyVal.dict [("name", PyVal.str "module_6005")]))

/-- `module_4251`: logs, returns `{"name": "module_4251"}`. -/
def module_4251 : PyFun := fun _ _ =>
  ([⟨Severity.info, MODULE_NAME, "module_4251 called", []⟩],
   Except.ok (PyVal.dict [("name", PyVal.str "module_4251")]))

/-- `module_937`: logs, returns `{"name": "module_937"}`. -/
def module_937 : PyFun := fun _ _ =>
  ([⟨Severity.info, MODULE_NAME, "module_937 called", []⟩],
   Except.ok (PyVal.dict [("name", PyVal.str "module_937")]))

/-- `module_1152`: logs, returns `{"name": "module_1152"}`. -/
def module_1152 : PyFun := fun _ _ =>
  ([⟨Severity.info, MODULE_NAME, "module_1152 called", []⟩],
   Except.ok (PyVal.dict [("name", PyVal.str "module_1152")]))

/-- `def func_2505() -> None`: zero parameters. -/
def func_2505 : PyFun :=
  zeroArgPlaceholder MODULE_NAME "func_2505 executed" "func_2505"

/-- `def func_1703() -> None`: zero parameters. -/
def func_1703 : PyFun :=
  zeroArgPlaceholder MODULE_NAME "func_1703 executed" "func_1703"

/-- `def func_7807() -> None`: zero parameters. -/
def func_7807 : PyFun :=
  zeroArgPlaceholder MODULE_NAME "func_7807 executed" "func_7807"

/-- `def func_368() -> None`: zero parameters. -/
def func_368 : PyFun :=
  zeroArgPlaceholder MODULE_NAME "func_368 executed" "func_368"

/-- `def func_4079() -> None`: zero parameters. -/
def func_4079 : PyFun :=
  zeroArgPlaceholder MODULE_NAME "func_4079 executed" "func_4079"

/-- `def func_5285() -> None`: zero parameters. -/
def func_5285 : PyFun :=
  zeroArgPlaceholder MODULE_NAME "func_5285 executed" "func_5285"

/-- `def func_1419() -> None`: zero parameters. -/
def func_1419 : PyFun :=
  zeroArgPlaceholder MODULE_NAME "func_1419 executed" "func_1419"

/-- `def func_2970() -> None`: zero parameters. -/
def func_2970 : PyFun :=
  zeroArgPlaceholder MODULE_NAME "func_2970 executed" "func_2970"

/-- `def func_6140() -> None`: zero parameters. -/
def func_6140 : PyFun :=
  zeroArgPlaceholder MODULE_NAME "func_6140 executed" "func_6140"

/-- `def func_323() -> None`: zero parameters. -/
def func_323 : PyFun :=
  zeroArgPlaceholder MODULE_NAME "func_323 executed" "func_323"

/-- `_make_stub(name)`: the dynamic fallback stub. -/
def _make_stub (name : String) : StubCallable where
  pyName := name
  doc := "Auto-generated stub for missing symbol \x27" ++ name ++ "\x27"
  call := fun args kwargs =>
    ([⟨Severity.warning, MODULE_NAME, "Stub called: %s args=%s kwargs=%s",
       [PyVal.str name, PyVal.tuple args, PyVal.dict kwargs]⟩],
     Except.ok (PyVal.dict
       [("stub", PyVal.str name), ("args", PyVal.tuple args),
        ("kwargs", PyVal.dict kwargs)]))

/-- Module-level `__getattr__`: strict policy. -/
def __getattr__ (name : String) :
    List LogEvent × Except PyError StubCallable :=
  if pyStartsWith name "module_" || pyStartsWith name "func_" then
    ([], Except.ok (_make_stub name))
  else
    ([], Except.error (PyError.attributeError MODULE_NAME name))

/-- `setup(client)`: no-op hook. -/
def setup : PyFun :=
  setupHook MODULE_NAME
    "verbalfree.setup() called — no handlers registered by default"

/-- The function-valued globals the module defines, in definition order. -/
def moduleAttrs : List (String × PyFun) :=
  [("module_3397", module_3397), ("module_6945", module_6945),
   ("module_336", module_336), ("module_1960", module_1960),
   ("module_8023", module_8023), ("module_4952", module_4952),
   ("module_6005", module_6005), ("module_4251", module_4251),
   ("module_937", module_937), ("module_1152", module_1152),
   ("func_2505", func_2505), ("func_1703", func_1703),
   ("func_7807", func_7807), ("func_368", func_368),
   ("func_4079", func_4079), ("func_5285", func_5285),
   ("func_1419", func_1419), ("func_2970", func_2970),
   ("func_6140", func_6140), ("func_323", func_323),
   ("setup", setup)]

/-- Dictionary lookup among the module's defined globals. -/
def lookupAttr (name : String) : Option PyFun :=
  (moduleAttrs.find? (fun p => p.1 == name)).map Prod.snd

/-- Full attribute access on the module object. -/
def moduleGetattr (name : String) :
    List LogEvent × Except PyError ResolvedAttr :=
  match lookupAttr name with
  | some f => ([], Except.ok (ResolvedAttr.preRegistered f))
  | Option.none =>
      let r := __getattr__ name
      (r.1, r.2.map ResolvedAttr.synthesized)

end verbalfree

/-! ### Helper lemmas shared across claims -/

/-- `__getattr__` of `awadhfree` emits no log event on either path. -/
theorem awadh_getattr_silent (name : String) :
    (awadhfree.__getattr__ name).1 = [] := by
  unfold awadhfree.__getattr__; split <;> rfl

/-- `__getattr__` of `cdsfree` emits no log event on either path. -/
theorem cds_getattr_silent (name : String) :
    (cdsfree.__getattr__ name).1 = [] := by
  unfold cdsfree.__getattr__; split <;> rfl

/-- `__getattr__` of `icsfree` emits no log event on either path. -/
theorem ics_getattr_silent (name : String) :
    (icsfree.__getattr__ name).1 = [] := by
  unfold icsfree.__getattr__; split <;> rfl

/-- `__getattr__` of `verbalfree` emits no log event on either path. -/
theorem verbal_getattr_silent (name : String) :
    (verbalfree.__getattr__ name).1 = [] := by
  unfold verbalfree.__getattr__; split <;> rfl

/-- Whether `pat` is a leading segment of a list is determined by the
first `n` elements of the list, for any `n` bounding `pat`'s length. -/
theorem listIsLeading_eq_of_take_eq (pat : List Char) :
    ∀ (s t : List Char) (n : Nat), pat.length ≤ n →
      s.take n = t.take n → listIsLeading pat s = listIsLeading pat t := by
  induction pat with
  | nil => intro s t n _ _; rfl
  | cons a as ih =>
    intro s t n hlen htake
    cases n with
    | zero => exact absurd hlen (by simp)
    | succ m =>
      cases s with
      | nil =>
        cases t with
        | nil => rfl
        | cons b bs => simp [List.take] at htake
      | cons c cs =>
        cases t with
        | nil => simp [List.take] at htake
        | cons b bs =>
          simp [List.take] at htake
          obtain ⟨hcb, hrest⟩ := htake
          subst hcb
          simp only [listIsLeading]
          rw [ih cs bs m (Nat.le_of_succ_le_succ hlen) hrest]

/-! ### Claims C1 – C4 -/

/-- C1: for every name matching an accepted prefix (`module_` or
`func_`), the module-level attribute-miss fallback of each of the four
variants returns a callable (the synthesized stub) and never raises. -/
theorem C1_accepted_names_resolve (name : String)
    (h : pyStartsWith name "module_" = true ∨ pyStartsWith name "func_" = true) :
    (awadhfree.__getattr__ name).2 = Except.ok (awadhfree._make_dummy name)
  ∧ (cdsfree.__getattr__ name).2 = Except.ok (cdsfree._make_stub name)
  ∧ (icsfree.__getattr__ name).2 = Except.ok (icsfree._make_stub name)
  ∧ (verbalfree.__getattr__ name).2 = Except.ok (verbalfree._make_stub name) := by
  rcases h with h | h <;>
    exact ⟨by simp [awadhfree.__getattr__, h], by simp [cdsfree.__getattr__, h],
           by simp [icsfree.__getattr__, h], by simp [verbalfree.__getattr__, h]⟩

/-- Witness for C1 at the concrete accepted name `"module_9999"`. -/
theorem C1_witness :
    (pyStartsWith "module_9999" "module_" = true
       ∨ pyStartsWith "module_9999" "func_" = true)
  ∧ (cdsfree.__getattr__ "module_9999").2
      = Except.ok (cdsfree._make_stub "module_9999") :=
  ⟨Or.inl (by decide),
   (C1_accepted_names_resolve "module_9999" (Or.inl (by decide))).2.1⟩

/-- C2: in the strict-prefix variants, a name matching no accepted prefix
fails with the unresolved-attribute error carrying the requested name,
and no other error kind is ever produced by the resolver. -/
theorem C2_reject_unresolved (name : String) :
    ((pyStartsWith name "module_" || pyStartsWith name "func_") = false →
       (cdsfree.__getattr__ name).2
           = Except.error (PyError.attributeError cdsfree.MODULE_NAME name)
     ∧ (icsfree.__getattr__ name).2
           = Except.error (PyError.attributeError icsfree.MODULE_NAME name)
     ∧ (verbalfree.__getattr__ name).2
           = Except.error (PyError.attributeError verbalfree.MODULE_NAME name))
  ∧ (∀ e, (cdsfree.__getattr__ name).2 = Except.error e →
       e = PyError.attributeError cdsfree.MODULE_NAME name)
  ∧ (∀ e, (icsfree.__getattr__ name).2 = Except.error e →
       e = PyError.attributeError icsfree.MODULE_NAME name)
  ∧ (∀ e, (verbalfree.__getattr__ name).2 = Except.error e →
       e = PyError.attributeError verbalfree.MODULE_NAME name) := by
  refine ⟨fun h => ⟨?_, ?_, ?_⟩, ?_, ?_, ?_⟩
  · simp [cdsfree.__getattr__, h]
  · simp [icsfree.__getattr__, h]
  · simp [verbalfree.__getattr__, h]
  · intro e he
    unfold cdsfree.__getattr__ at he
    split at he
    · simp at he
    · simp at he; exact he.symm
  · intro e he
    unfold icsfree.__getattr__ at he
    split at he
    · simp at he
    · simp at he; exact he.symm
  · intro e he
    unfold verbalfree.__getattr__ at he
    split at he
    · simp at he
    · simp at he; exact he.symm

/-- Witness for C2 at the concrete rejected name `"totally_unrelated"`. -/
theorem C2_witness :
    ((pyStartsWith "totally_unrelated" "module_"
        || pyStartsWith "totally_unrelated" "func_") = false)
  ∧ (cdsfree.__getattr__ "totally_unrelated").2
      = Except.error
          (PyError.attributeError cdsfree.MODULE_NAME "totally_unrelated") :=
  ⟨by decide, ((C2_reject_unresolved "totally_unrelated").1 (by decide)).1⟩

/-- C3: invoking the callable returned by the resolver echoes back a
record whose name component (dict key `"stub"`) is the originally
requested name and whose args/kwargs components are exactly the received
inputs, unchanged — in all four variants. -/
theorem C3_stub_echoes_exactly (name : String) (args : Args)
    (kwargs : Kwargs) (f : StubCallable) :
    ((awadhfree.__getattr__ name).2 = Except.ok f →
       (f.call args kwargs).2 = Except.ok (PyVal.dict
         [("stub", PyVal.str name), ("args", PyVal.tuple args),
          ("kwargs", PyVal.dict kwargs)]))
  ∧ ((cdsfree.__getattr__ name).2 = Except.ok f →
       (f.call args kwargs).2 = Except.ok (PyVal.dict
         [("stub", PyVal.str name), ("args", PyVal.tuple args),
          ("kwargs", PyVal.dict kwargs)]))
  ∧ ((icsfree.__getattr__ name).2 = Except.ok f →
       (f.call args kwargs).2 = Except.ok (PyVal.dict
         [("stub", PyVal.str name), ("args", PyVal.tuple args),
          ("kwargs", PyVal.dict kwargs)]))
  ∧ ((verbalfree.__getattr__ name).2 = Except.ok f →
       (f.call args kwargs).2 = Except.ok (PyVal.dict
         [("stub", PyVal.str name), ("args", PyVal.tuple args),
          ("kwargs", PyVal.dict kwargs)])) := by
  refine ⟨fun h => ?_, fun h => ?_, fun h => ?_, fun h => ?_⟩
  · unfold awadhfree.__getattr__ at h
    split at h
    · simp at h; subst h; rfl
    · simp at h
  · unfold cdsfree.__getattr__ at h
    split at h
    · simp at h; subst h; rfl
    · simp at h
  · unfold icsfree.__getattr__ at h
    split at h
    · simp at h; subst h; rfl
    · simp at h
  · unfold verbalfree.__getattr__ at h
    split at h
    · simp at h; subst h; rfl
    · simp at h

/-- Witness for C3: Scenario 1 — `"module_9999"` invoked with `(1, 2)`
and `{"x": 3}` echoes `{stub: "module_9999", args: (1,2), kwargs: {x:3}}`. -/
theorem C3_witness :
    ((cdsfree._make_stub "module_9999").call
        [PyVal.int 1, PyVal.int 2] [("x", PyVal.int 3)]).2
      = Except.ok (PyVal.dict
          [("stub", PyVal.str "module_9999"),
           ("args", PyVal.tuple [PyVal.int 1, PyVal.int 2]),
           ("kwargs", PyVal.dict [("x", PyVal.int 3)])]) :=
  (C3_stub_echoes_exactly "module_9999" [PyVal.int 1, PyVal.int 2]
    [("x", PyVal.int 3)] (cdsfree._make_stub "module_9999")).2.1 rfl

/-- C4: every synthesized stub callable succeeds on every input — its
invocation returns a value and never raises, in all four variants. -/
theorem C4_stub_never_raises (name : String) (args : Args) (kwargs : Kwargs) :
    (∃ v, ((awadhfree._make_dummy name).call args kwargs).2 = Except.ok v)
  ∧ (∃ v, ((cdsfree._make_stub name).call args kwargs).2 = Except.ok v)
  ∧ (∃ v, ((icsfree._make_stub name).call args kwargs).2 = Except.ok v)
  ∧ (∃ v, ((verbalfree._make_stub name).call args kwargs).2 = Except.ok v) :=
  ⟨⟨_, rfl⟩, ⟨_, rfl⟩, ⟨_, rfl⟩, ⟨_, rfl⟩⟩

/-! ### Claims C5 – C7 -/

/-- Counterexample to C5: in the wide variant (`awadhfree`) the reject
path is not disabled.  The name `"a-b"` matches no accepted start and is
not a valid identifier, so resolution raises the unresolved-attribute
error rather than succeeding. -/
theorem C5_counterexample :
    ((pyStartsWith "a-b" "module_" || pyStartsWith "a-b" "func_") = false)
  ∧ pyIsIdentifier "a-b" = false
  ∧ (awadhfree.__getattr__ "a-b").2
      = Except.error (PyError.attributeError awadhfree.MODULE_NAME "a-b") :=
  ⟨by decide, by decide, rfl⟩

/-- C5 (amended): the wide variant accepts any (ASCII) syntactically
valid identifier in addition to the prefixed names, but the reject path
survives: a name that is neither prefixed nor a valid identifier still
fails with the unresolved-attribute error. -/
theorem C5_amended_wide_classifier (name : String) :
    (pyIsIdentifier name = true →
       (awadhfree.__getattr__ name).2
         = Except.ok (awadhfree._make_dummy name))
  ∧ ((pyStartsWith name "module_" || pyStartsWith name "func_") = false →
     pyIsIdentifier name = false →
       (awadhfree.__getattr__ name).2
         = Except.error (PyError.attributeError awadhfree.MODULE_NAME name)) := by
  refine ⟨fun h => ?_, fun h1 h2 => ?_⟩
  · simp [awadhfree.__getattr__, h]
  · simp [awadhfree.__getattr__, h1, h2]

/-- Witness for the amended C5: `"hello"` (identifier, unprefixed) is
accepted; `"a b"` (neither prefixed nor an identifier) is rejected. -/
theorem C5_witness :
    pyIsIdentifier "hello" = true
  ∧ (awadhfree.__getattr__ "hello").2
      = Except.ok (awadhfree._make_dummy "hello")
  ∧ ((pyStartsWith "a b" "module_" || pyStartsWith "a b" "func_") = false)
  ∧ pyIsIdentifier "a b" = false
  ∧ (awadhfree.__getattr__ "a b").2
      = Except.error (PyError.attributeError awadhfree.MODULE_NAME "a b") :=
  ⟨by decide, (C5_amended_wide_classifier "hello").1 (by decide),
   by decide, by decide,
   (C5_amended_wide_classifier "a b").2 (by decide) (by decide)⟩

/-- Counterexample to C6: `func_2731` is defined with zero parameters, so
calling it with an argument raises `TypeError` instead of succeeding with
the same result as a no-argument call. -/
theorem C6_counterexample :
    (awadhfree.func_2731 [PyVal.int 1] []).2
      = Except.error (PyError.typeError "func_2731")
  ∧ (awadhfree.func_2731 [] []).2 = Except.ok PyVal.none :=
  ⟨rfl, rfl⟩

/-- A zero-parameter placeholder returns `None` on an empty call and
raises `TypeError` on any positional or keyword argument. -/
theorem zeroArgPlaceholder_spec (mod template fname : String)
    (args : Args) (kwargs : Kwargs) :
    (zeroArgPlaceholder mod template fname args kwargs).2
      = if args.isEmpty && kwargs.isEmpty then Except.ok PyVal.none
        else Except.error (PyError.typeError fname) := by
  unfold zeroArgPlaceholder
  cases h : (args.isEmpty && kwargs.isEmpty) <;> simp [h]

/-- C6 (amended): the placeholders declared with starred parameters
accept any positional/keyword arguments and return their fixed inert
result regardless of input; the zero-parameter placeholders (such as
`func_2731` and `func_2505`) return their fixed result only on an empty
call and raise `TypeError` when given any argument. -/
theorem C6_amended_placeholders (n : String) (args : Args) (kwargs : Kwargs) :
    (awadhfree.module_772 args kwargs).2 = Except.ok (PyVal.str "module_772 OK")
  ∧ (awadhfree.module_1861 args kwargs).2 = Except.ok (PyVal.str "module_1861 OK")
  ∧ (awadhfree.module_567 args kwargs).2 = Except.ok (PyVal.str "module_567 OK")
  ∧ (awadhfree.module_7197 args kwargs).2 = Except.ok (PyVal.str "module_7197 OK")
  ∧ (cdsfree._make n args kwargs).2
      = Except.ok (PyVal.dict [("name", PyVal.str n), ("ok", PyVal.bool true)])
  ∧ (cdsfree._makef n args kwargs).2 = Except.ok PyVal.none
  ∧ (icsfree._make n args kwargs).2
      = Except.ok (PyVal.dict [("name", PyVal.str n), ("ok", PyVal.bool true)])
  ∧ (icsfree._makef n args kwargs).2 = Except.ok PyVal.none
  ∧ (verbalfree.module_3397 args kwargs).2
      = Except.ok (PyVal.dict
          [("name", PyVal.str "module_3397"), ("ok", PyVal.bool true)])
  ∧ (verbalfree.module_6945 args kwargs).2
      = Except.ok (PyVal.dict
          [("name", PyVal.str "module_6945"), ("value", PyVal.int 6945)])
  ∧ (verbalfree.module_336 args kwargs).2
      = Except.ok (PyVal.dict [("name", PyVal.str "module_336")])
  ∧ (verbalfree.module_1960 args kwargs).2
      = Except.ok (PyVal.dict [("name", PyVal.str "module_1960")])
  ∧ (verbalfree.module_8023 args kwargs).2
      = Except.ok (PyVal.dict [("name", PyVal.str "module_8023")])
  ∧ (verbalfree.module_4952 args kwargs).2
      = Except.ok (PyVal.dict [("name", PyVal.str "module_4952")])
  ∧ (verbalfree.module_6005 args kwargs).2
      = Except.ok (PyVal.dict [("name", PyVal.str "module_6005")])
  ∧ (verbalfree.module_4251 args kwargs).2
      = Except.ok (PyVal.dict [("name", PyVal.str "module_4251")])
  ∧ (verbalfree.module_937 args kwargs).2
      = Except.ok (PyVal.dict [("name", PyVal.str "module_937")])
  ∧ (verbalfree.module_1152 args kwargs).2
      = Except.ok (PyVal.dict [("name", PyVal.str "module_1152")])
  ∧ (awadhfree.func_2731 args kwargs).2
      = (if args.isEmpty && kwargs.isEmpty then Except.ok PyVal.none
         else Except.error (PyError.typeError "func_2731"))
  ∧ (awadhfree.func_166 args kwargs).2
      = (if args.isEmpty && kwargs.isEmpty then Except.ok PyVal.none
         else Except.error (PyError.typeError "func_166"))
  ∧ (awadhfree.func_6399 args kwargs).2
      = (if args.isEmpty && kwargs.isEmpty then Except.ok PyVal.none
         else Except.error (PyError.typeError "func_6399"))
  ∧ (verbalfree.func_2505 args kwargs).2
      = (if args.isEmpty && kwargs.isEmpty then Except.ok PyVal.none
         else Except.error (PyError.typeError "func_2505"))
  ∧ (verbalfree.func_1703 args kwargs).2
      = (if args.isEmpty && kwargs.isEmpty then Except.ok PyVal.none
         else Except.error (PyError.typeError "func_1703"))
  ∧ (verbalfree.func_7807 args kwargs).2
      = (if args.isEmpty && kwargs.isEmpty then Except.ok PyVal.none
         else Except.error (PyError.typeError "func_7807"))
  ∧ (verbalfree.func_368 args kwargs).2
      = (if args.isEmpty && kwargs.isEmpty then Except.ok PyVal.none
         else Except.error (PyError.typeError "func_368"))
  ∧ (verbalfree.func_4079 args kwargs).2
      = (if args.isEmpty && kwargs.isEmpty then Except.ok PyVal.none
         else Except.error (PyError.typeError "func_4079"))
  ∧ (verbalfree.func_5285 args kwargs).2
      = (if args.isEmpty && kwargs.isEmpty then Except.ok PyVal.none
         else Except.error (PyError.typeError "func_5285"))
  ∧ (verbalfree.func_1419 args kwargs).2
      = (if args.isEmpty && kwargs.isEmpty then Except.ok PyVal.none
         else Except.error (PyError.typeError "func_1419"))
  ∧ (verbalfree.func_2970 args kwargs).2
      = (if args.isEmpty && kwargs.isEmpty then Except.ok PyVal.none
         else Except.error (PyError.typeError "func_2970"))
  ∧ (verbalfree.func_6140 args kwargs).2
      = (if args.isEmpty && kwargs.isEmpty then Except.ok PyVal.none
         else Except.error (PyError.typeError "func_6140"))
  ∧ (verbalfree.func_323 args kwargs).2
      = (if args.isEmpty && kwargs.isEmpty then Except.ok PyVal.none
         else Except.error (PyError.typeError "func_323")) :=
  ⟨rfl, rfl, rfl, rfl, rfl, rfl, rfl, rfl, rfl, rfl, rfl, rfl, rfl, rfl,
   rfl, rfl, rfl, rfl,
   zeroArgPlaceholder_spec _ _ _ args kwargs,
   zeroArgPlaceholder_spec _ _ _ args kwargs,
   zeroArgPlaceholder_spec _ _ _ args kwargs,
   zeroArgPlaceholder_spec _ _ _ args kwargs,
   zeroArgPlaceholder_spec _ _ _ args kwargs,
   zeroArgPlaceholder_spec _ _ _ args kwargs,
   zeroArgPlaceholder_spec _ _ _ args kwargs,
   zeroArgPlaceholder_spec _ _ _ args kwargs,
   zeroArgPlaceholder_spec _ _ _ args kwargs,
   zeroArgPlaceholder_spec _ _ _ args kwargs,
   zeroArgPlaceholder_spec _ _ _ args kwargs,
   zeroArgPlaceholder_spec _ _ _ args kwargs,
   zeroArgPlaceholder_spec _ _ _ args kwargs⟩

/-- C7: a pre-registered name short-circuits the resolver — the full
module attribute access returns the very entry stored in the module
dict (so repeated lookups share one function object), the synthesized
branch is not taken and no events are emitted.  The second conjunct
expresses the shared identity: any lookup of the same name produces the
same stored function. -/
theorem C7_preregistered_precedence (name : String) (f : PyFun)
    (h : awadhfree.lookupAttr name = some f) :
    awadhfree.moduleGetattr name
      = ([], Except.ok (ResolvedAttr.preRegistered f))
  ∧ (∀ g, awadhfree.lookupAttr name = some g → g = f) := by
  constructor
  · unfold awadhfree.moduleGetattr
    rw [h]
  · intro g hg
    rw [h] at hg
    exact (Option.some.injEq g f ▸ hg.symm ▸ rfl)

/-- Witness for C7 at the pre-registered name `"module_772"`. -/
theorem C7_witness :
    awadhfree.lookupAttr "module_772" = some awadhfree.module_772
  ∧ awadhfree.moduleGetattr "module_772"
      = ([], Except.ok (ResolvedAttr.preRegistered awadhfree.module_772)) :=
  ⟨rfl, (C7_preregistered_precedence "module_772" awadhfree.module_772 rfl).1⟩

/-! ### Claims C8 – C10 -/

/-- C8: resolving the same previously-unseen name twice yields
behaviourally equivalent callables — same bound name and identical
invocation behaviour (equal events and equal stub records on every
input) — in the cited variants. -/
theorem C8_idempotent_resolution (name : String) (f g : StubCallable) :
    ((cdsfree.__getattr__ name).2 = Except.ok f →
     (cdsfree.__getattr__ name).2 = Except.ok g →
       f.pyName = g.pyName
     ∧ ∀ args kwargs, f.call args kwargs = g.call args kwargs)
  ∧ ((verbalfree.__getattr__ name).2 = Except.ok f →
     (verbalfree.__getattr__ name).2 = Except.ok g →
       f.pyName = g.pyName
     ∧ ∀ args kwargs, f.call args kwargs = g.call args kwargs) := by
  constructor
  · intro h1 h2
    rw [h1] at h2
    injection h2 with hfg
    subst hfg
    exact ⟨rfl, fun _ _ => rfl⟩
  · intro h1 h2
    rw [h1] at h2
    injection h2 with hfg
    subst hfg
    exact ⟨rfl, fun _ _ => rfl⟩

/-- Witness for C8 at the concrete name `"func_777"` and input `(7,)`. -/
theorem C8_witness :
    (cdsfree.__getattr__ "func_777").2 = Except.ok (cdsfree._make_stub "func_777")
  ∧ (cdsfree._make_stub "func_777").call [PyVal.int 7] []
      = (cdsfree._make_stub "func_777").call [PyVal.int 7] [] :=
  ⟨rfl,
   ((C8_idempotent_resolution "func_777" (cdsfree._make_stub "func_777")
       (cdsfree._make_stub "func_777")).1 rfl rfl).2 [PyVal.int 7] []⟩

/-- Counterexample to C9: resolving the accepted name `"module_9999"`
emits zero observability events, not exactly one informational event —
the resolver is silent. -/
theorem C9_counterexample :
    (cdsfree.__getattr__ "module_9999").1 = []
  ∧ (cdsfree.__getattr__ "module_9999").1.length ≠ 1 :=
  ⟨rfl, by decide⟩

/-- C9 (amended): resolution itself emits no observability event on
either path in any variant; each stub invocation emits exactly one
elevated-severity (warning) event through the module's logger, carrying
the bound name and the received inputs. -/
theorem C9_amended_observability (name : String) (args : Args) (kwargs : Kwargs) :
    (awadhfree.__getattr__ name).1 = []
  ∧ (cdsfree.__getattr__ name).1 = []
  ∧ (icsfree.__getattr__ name).1 = []
  ∧ (verbalfree.__getattr__ name).1 = []
  ∧ ((awadhfree._make_dummy name).call args kwargs).1
      = [⟨Severity.warning, awadhfree.MODULE_NAME,
          "Called fallback stub %s with args=%s kwargs=%s",
          [PyVal.str name, PyVal.tuple args, PyVal.dict kwargs]⟩]
  ∧ ((cdsfree._make_stub name).call args kwargs).1
      = [⟨Severity.warning, cdsfree.MODULE_NAME,
          "Stub called: %s args=%s kwargs=%s",
          [PyVal.str name, PyVal.tuple args, PyVal.dict kwargs]⟩]
  ∧ ((icsfree._make_stub name).call args kwargs).1
      = [⟨Severity.warning, icsfree.MODULE_NAME,
          "Stub called: %s args=%s kwargs=%s",
          [PyVal.str name, PyVal.tuple args, PyVal.dict kwargs]⟩]
  ∧ ((verbalfree._make_stub name).call args kwargs).1
      = [⟨Severity.warning, verbalfree.MODULE_NAME,
          "Stub called: %s args=%s kwargs=%s",
          [PyVal.str name, PyVal.tuple args, PyVal.dict kwargs]⟩] :=
  ⟨awadh_getattr_silent name, cds_getattr_silent name, ics_getattr_silent name,
   verbal_getattr_silent name, rfl, rfl, rfl, rfl⟩

/-- Counterexample to C10: in `awadhfree`, classification is not decided
by the name's leading characters alone — `"aaaaaaa"` and `"aaaaaaa-"`
agree on their first 7 characters (7 = the length of the longest
accepted leading pattern `"module_"`), yet the first is accepted and the
second rejected, because the identifier check inspects the whole
string. -/
theorem C10_counterexample :
    "aaaaaaa".data.take 7 = "aaaaaaa-".data.take 7
  ∧ (awadhfree.__getattr__ "aaaaaaa").2
      = Except.ok (awadhfree._make_dummy "aaaaaaa")
  ∧ (awadhfree.__getattr__ "aaaaaaa-").2
      = Except.error (PyError.attributeError awadhfree.MODULE_NAME "aaaaaaa-") :=
  ⟨by decide, rfl, rfl⟩

/-- C10 (amended): in the three strict variants the accept/reject
decision is a function of the first 7 characters of the name; in all
four variants any string beginning `module_` or `func_` is accepted even
when it is not a valid identifier, and the resolver is total over
strings — for every string (the empty string included) it either returns
the synthesized stub or raises exactly the unresolved-attribute error,
never any other exception.  (In the wide variant the decision
additionally inspects the rest of the string, per the counterexample.) -/
theorem C10_amended_classification (s t : String) :
    (s.data.take 7 = t.data.take 7 →
       (pyStartsWith s "module_" || pyStartsWith s "func_")
         = (pyStartsWith t "module_" || pyStartsWith t "func_"))
  ∧ ((pyStartsWith s "module_" || pyStartsWith s "func_") = true →
       (awadhfree.__getattr__ s).2 = Except.ok (awadhfree._make_dummy s)
     ∧ (cdsfree.__getattr__ s).2 = Except.ok (cdsfree._make_stub s)
     ∧ (icsfree.__getattr__ s).2 = Except.ok (icsfree._make_stub s)
     ∧ (verbalfree.__getattr__ s).2 = Except.ok (verbalfree._make_stub s))
  ∧ ((awadhfree.__getattr__ s).2 = Except.ok (awadhfree._make_dummy s)
       ∨ (awadhfree.__getattr__ s).2
           = Except.error (PyError.attributeError awadhfree.MODULE_NAME s))
  ∧ ((cdsfree.__getattr__ s).2 = Except.ok (cdsfree._make_stub s)
       ∨ (cdsfree.__getattr__ s).2
           = Except.error (PyError.attributeError cdsfree.MODULE_NAME s))
  ∧ ((icsfree.__getattr__ s).2 = Except.ok (icsfree._make_stub s)
       ∨ (icsfree.__getattr__ s).2
           = Except.error (PyError.attributeError icsfree.MODULE_NAME s))
  ∧ ((verbalfree.__getattr__ s).2 = Except.ok (verbalfree._make_stub s)
       ∨ (verbalfree.__getattr__ s).2
           = Except.error (PyError.attributeError verbalfree.MODULE_NAME s)) := by
  refine ⟨fun h => ?_, fun h => ?_, ?_, ?_, ?_, ?_⟩
  · unfold pyStartsWith
    rw [listIsLeading_eq_of_take_eq "module_".data s.data t.data 7 (by decide) h,
        listIsLeading_eq_of_take_eq "func_".data s.data t.data 7 (by decide) h]
  · exact ⟨by simp [awadhfree.__getattr__, h], by simp [cdsfree.__getattr__, h],
           by simp [icsfree.__getattr__, h], by simp [verbalfree.__getattr__, h]⟩
  · unfold awadhfree.__getattr__
    split
    · exact Or.inl rfl
    · exact Or.inr rfl
  · unfold cdsfree.__getattr__
    split
    · exact Or.inl rfl
    · exact Or.inr rfl
  · unfold icsfree.__getattr__
    split
    · exact Or.inl rfl
    · exact Or.inr rfl
  · unfold verbalfree.__getattr__
    split
    · exact Or.inl rfl
    · exact Or.inr rfl

/-- Witness for the amended C10: leading-7 determinism at
`"module_abc"`/`"module_xyz"`, acceptance of the non-identifier
`"module_-x"`, and totality at the empty string. -/
theorem C10_witness :
    ((pyStartsWith "module_abc" "module_" || pyStartsWith "module_abc" "func_")
       = (pyStartsWith "module_xyz" "module_" || pyStartsWith "module_xyz" "func_"))
  ∧ (cdsfree.__getattr__ "module_-x").2 = Except.ok (cdsfree._make_stub "module_-x")
  ∧ ((icsfree.__getattr__ "").2 = Except.ok (icsfree._make_stub "")
       ∨ (icsfree.__getattr__ "").2
           = Except.error (PyError.attributeError icsfree.MODULE_NAME "")) :=
  ⟨(C10_amended_classification "module_abc" "module_xyz").1 (by decide),
   ((C10_amended_classification "module_-x" "x").2.1 (by decide)).2.1,
   (C10_amended_classification "" "x").2.2.2.2.1⟩
